import Mathlib

set_option maxHeartbeats 1000000

/-!
Shallow embedding of the moltbot Marlo trajectory-capture subsystem.

The definitions below translate, declaration by declaration, the state and
operations of `src/marlo/trajectory.ts` (trajectory store, event buffer,
flush scheduler), `src/marlo/event-listener.ts` (signal correlator and
assistant-text debouncer) and `src/marlo/constants.ts` (buffer settings).
JavaScript `Map`s become association lists, `setTimeout` handles become
explicit timer fields that a scheduler step may fire only while they are
live, `Date.now()` becomes an explicit clock field, and `randomUUID()`
becomes a counter-indexed fresh-name generator.  JS truthiness of optional
strings and numbers is modelled explicitly (`""` and `0` are falsy).
-/

/-- Association-list get, mirroring JS `Map.get`. -/
def mget {α : Type} (k : String) : List (String × α) → Option α
  | [] => none
  | (k', v) :: rest => if k' = k then some v else mget k rest

/-- Association-list set, mirroring JS `Map.set` (overwrite in place or append). -/
def mset {α : Type} (k : String) (v : α) : List (String × α) → List (String × α)
  | [] => [(k, v)]
  | (k', v') :: rest => if k' = k then (k, v) :: rest else (k', v') :: mset k v rest

/-- Association-list delete, mirroring JS `Map.delete` (a JS `Map` holds
each key at most once, so removing every binding of `k` is the same
operation). -/
def mdel {α : Type} (k : String) : List (String × α) → List (String × α)
  | [] => []
  | (k', v') :: rest => if k' = k then mdel k rest else (k', v') :: mdel k rest

/-- Membership in a set of session keys (the live-debounce-timer set). -/
def tmem (k : String) : List String → Bool
  | [] => false
  | k' :: rest => if k' = k then true else tmem k rest

/-- Add a key to the timer set (`Map.set` on a map used as a set). -/
def tset (k : String) (l : List String) : List String :=
  if tmem k l then l else l ++ [k]

/-- Remove a key from the timer set (`clearTimeout` + `Map.delete`). -/
def tdel (k : String) : List String → List String
  | [] => []
  | k' :: rest => if k' = k then tdel k rest else k' :: tdel k rest

/-- JS truthiness of an optional string: `undefined` and `""` are falsy. -/
def strTruthy : Option String → Bool
  | some v => v != ""
  | none => false

/-- JS truthiness of an optional number: `undefined` and `0` are falsy. -/
def natTruthy : Option Nat → Bool
  | some n => n != 0
  | none => false

/-- JS `s.startsWith(p)`: does `s` begin with `p`? -/
def startsWithFn (s p : String) : Bool :=
  List.isPrefixOf p.data s.data

/-- A JSON scalar, recording the dynamic type of values put on the wire.
The code builds `run_id` with `String(runId)`, so the distinction between
a JSON string and a JSON number is observable and must be kept. -/
inductive JVal where
  | str (s : String)
  | num (n : Int)
deriving DecidableEq

/-- `TrajectoryEventType` from `types.ts`. -/
inductive TrajectoryEventType where
  | task_start
  | task_end
  | llm_call
  | tool_call
  | agent_definition
  | log
deriving DecidableEq

/-- Terminal status accepted by `endTrajectory`. -/
inductive EndStatus where
  | success
  | error
  | cancelled
deriving DecidableEq

/-- An opaque JS value (`unknown` in the source), enough to carry tool
inputs/outputs and the `{}` default. -/
inductive Val where
  | obj0
  | str (s : String)
  | num (n : Int)
  | bool (b : Bool)
deriving DecidableEq

/-- One chat message, `{ role, content }`. -/
structure ChatMessage where
  role : String
  content : String
deriving DecidableEq

/-- `response` argument of `logLLMCall`: `{ text?: string }`. -/
structure LLMResponse where
  text : Option String
deriving DecidableEq

/-- `reasoning` argument of `logLLMCall`: `{ thinking?: string }`. -/
structure LLMReasoning where
  thinking : Option String
deriving DecidableEq

/-- `usage` argument of `logLLMCall` (camelCase, pre-normalisation). -/
structure UsageIn where
  inputTokens : Option Nat
  outputTokens : Option Nat
  reasoningTokens : Option Nat
deriving DecidableEq

/-- Normalised usage block of `LLMCallPayload` (snake_case, with total). -/
structure UsageOut where
  input_tokens : Option Nat
  output_tokens : Option Nat
  reasoning_tokens : Option Nat
  total_tokens : Nat
deriving DecidableEq

/-- `LLMCallPayload` from `types.ts`. -/
structure LLMCallPayload where
  messages : List ChatMessage
  model : Option String
  provider : Option String
  response : Option LLMResponse
  usage : Option UsageOut
  reasoning : Option LLMReasoning
  error : Option String
deriving DecidableEq

/-- `ToolCallPayload` from `types.ts`. -/
structure ToolCallPayload where
  tool_name : String
  tool_input : Val
  tool_output : Option Val
  error : Option String
  duration_ms : Option Nat
deriving DecidableEq

/-- `AgentDefinitionPayload` from `types.ts`. -/
structure AgentDefinitionPayload where
  agent_id : String
  name : Option String
  description : Option String
  tools : Option (List String)
  system_prompt : Option String
  parent_agent_id : Option String
deriving DecidableEq

/-- Typed event payload.  The free-form `metadata` records are carried as
opaque optional values; the `task_start` payload keeps the channel next to
the metadata it is spread into. -/
inductive Payload where
  | taskStart (task : String) (channel : Option String) (metadata : Option Val)
  | taskEnd (status : EndStatus) (final_answer : Option String) (error : Option String)
      (metadata : Option Val)
  | llmCall (p : LLMCallPayload)
  | toolCall (p : ToolCallPayload)
  | agentDefinition (p : AgentDefinitionPayload)
deriving DecidableEq

/-- `TrajectoryEvent` as actually constructed by `createEvent` in
`trajectory.ts`.  `created_at` keeps the clock value whose ISO rendering
the code stores. -/
structure TrajectoryEvent where
  event_id : String
  run_id : JVal
  agent_id : String
  parent_agent_id : Option String
  invocation_id : String
  task_id : String
  event_type : TrajectoryEventType
  payload : Payload
  created_at : Nat
deriving DecidableEq

/-- `ActiveTrajectory` from `trajectory.ts`. -/
structure ActiveTrajectory where
  runId : String
  sessionKey : String
  taskId : String
  agentId : String
  startedAt : Nat
  events : List TrajectoryEvent
deriving DecidableEq

/-- Shape of `BUFFER_SETTINGS` in `constants.ts`. -/
structure BufferSettings where
  maxSize : Nat
  flushIntervalMs : Nat
  maxRetries : Nat
  retryDelayMs : Nat
deriving DecidableEq

/-- `BUFFER_SETTINGS` from `constants.ts`. -/
def BUFFER_SETTINGS : BufferSettings :=
  { maxSize := 100, flushIntervalMs := 5000, maxRetries := 3, retryDelayMs := 1000 }

/-- `MOLTBOT_AGENT_ID` from `constants.ts`. -/
def MOLTBOT_AGENT_ID : String := "moltbot"

/-- One entry of `llmPendingData` in `event-listener.ts`. -/
structure PendingLLM where
  text : String
  model : Option String
  provider : Option String
deriving DecidableEq

/-- `usage` block of an assistant signal. -/
structure UsageSignal where
  inputTokens : Option Nat
  outputTokens : Option Nat
  cacheRead : Option Nat
  cacheWrite : Option Nat
deriving DecidableEq

/-- The untyped `data: Record<string, unknown>` of an agent signal, as the
bag of fields the handlers actually read. -/
structure SignalData where
  phase : Option String
  name : Option String
  toolCallId : Option String
  args : Option Val
  result : Option Val
  error : Option Val
  isError : Option Bool
  text : Option String
  thinking : Option String
  model : Option String
  provider : Option String
  usage : Option UsageSignal
deriving DecidableEq

/-- A signal carrying none of the recognised fields. -/
def emptySignal : SignalData :=
  { phase := none, name := none, toolCallId := none, args := none, result := none,
    error := none, isError := none, text := none, thinking := none, model := none,
    provider := none, usage := none }

/-- The `stream` discriminator of an agent signal. -/
inductive StreamName where
  | tool
  | assistant
  | lifecycle
deriving DecidableEq

/-- The whole mutable state of the subsystem: the module-level variables of
`trajectory.ts` and `event-listener.ts`, the clock, the identifier
generators, and the history of batches submitted to the transport. -/
structure SysState where
  eventBuffer : List TrajectoryEvent
  flushTimer : Option Nat
  activeTrajectories : List (String × ActiveTrajectory)
  runIdCounter : Nat
  uuidCounter : Nat
  clock : Nat
  clientReady : Bool
  listening : Bool
  toolStartTimes : List (String × Nat)
  toolInputsById : List (String × Val)
  runIdToSession : List (String × String)
  lastLLMText : List (String × String)
  llmTimers : List String
  llmPending : List (String × PendingLLM)
  sentBatches : List (List TrajectoryEvent)
deriving DecidableEq

/-- Module-load state.  `runIdCounter` is seeded from `Date.now()`, kept
abstract as `seed`; `clientReady` says whether `getMarloClient()` returns a
client. -/
def initState (client : Bool) (seed : Nat) : SysState :=
  { eventBuffer := [], flushTimer := none, activeTrajectories := [],
    runIdCounter := seed, uuidCounter := 0, clock := 0, clientReady := client,
    listening := false, toolStartTimes := [], toolInputsById := [],
    runIdToSession := [], lastLLMText := [], llmTimers := [], llmPending := [],
    sentBatches := [] }

/-- `randomUUID()`, modelled as a fresh counter-indexed name. -/
def mkUuid (n : Nat) : String := "uuid-" ++ Nat.repr n

/-- `createEvent` from `trajectory.ts` (pure part).  Note `run_id` is
`JVal.str t.runId`: the code writes `run_id: trajectory.runId` where
`runId` was built with `String(runId)`. -/
def mkEvent (eid : Nat) (now : Nat) (t : ActiveTrajectory) (ty : TrajectoryEventType)
    (p : Payload) : TrajectoryEvent :=
  { event_id := mkUuid eid, run_id := JVal.str t.runId, agent_id := t.agentId,
    parent_agent_id := none, invocation_id := t.runId ++ "-" ++ t.taskId,
    task_id := t.taskId, event_type := ty, payload := p, created_at := now }

/-- `flushBuffer` from `trajectory.ts`: cancel the timer, no-op on an empty
buffer, otherwise swap the buffer out and, when a client exists, submit the
batch (the transport result is ignored and a failure is swallowed). -/
def flushBufferFn (s : SysState) : SysState :=
  let s1 : SysState := { s with flushTimer := none }
  if s1.eventBuffer = [] then s1
  else
    let events := s1.eventBuffer
    let s2 : SysState := { s1 with eventBuffer := [] }
    if s2.clientReady then { s2 with sentBatches := s2.sentBatches ++ [events] } else s2

/-- `flushBuffer` with the transport outcome made explicit: the `try`
around `ingestEvents` catches a failure, logs it, and leaves the state
exactly as on success (no re-queue, no exception). -/
def flushBufferWith (transportOk : Bool) (s : SysState) : SysState :=
  let s1 : SysState := { s with flushTimer := none }
  if s1.eventBuffer = [] then s1
  else
    let events := s1.eventBuffer
    let s2 : SysState := { s1 with eventBuffer := [] }
    if s2.clientReady then
      let s3 : SysState := { s2 with sentBatches := s2.sentBatches ++ [events] }
      if transportOk then s3 else s3
    else s2

/-- `bufferEvent` from `trajectory.ts`: append, arm the flush timer if none
is armed, and flush immediately once the buffer reaches `maxSize`. -/
def bufferEventFn (e : TrajectoryEvent) (s : SysState) : SysState :=
  let s1 : SysState := { s with eventBuffer := s.eventBuffer ++ [e] }
  let s2 : SysState :=
    if s1.flushTimer = none then
      { s1 with flushTimer := some (s1.clock + BUFFER_SETTINGS.flushIntervalMs) }
    else s1
  if BUFFER_SETTINGS.maxSize ≤ s2.eventBuffer.length then flushBufferFn s2 else s2

/-- The trajectory record `startTrajectory` builds: fresh run id from the
counter (stringified), fresh task id, defaulted agent id. -/
def mkTrajectory (s : SysState) (sessionKey : String) (agentId : Option String) :
    ActiveTrajectory :=
  { runId := Nat.repr s.runIdCounter, sessionKey := sessionKey,
    taskId := mkUuid s.uuidCounter, agentId := agentId.getD MOLTBOT_AGENT_ID,
    startedAt := s.clock, events := [] }

/-- `startTrajectory` from `trajectory.ts`.  It unconditionally overwrites
any trajectory already stored for the session and emits a `task_start`. -/
def startTrajectoryFn (sessionKey task : String) (channel agentId : Option String)
    (metadata : Option Val) (s : SysState) : SysState :=
  let t := mkTrajectory s sessionKey agentId
  let s1 : SysState := { s with runIdCounter := s.runIdCounter + 1,
                                uuidCounter := s.uuidCounter + 1 }
  let s2 : SysState := { s1 with activeTrajectories := mset sessionKey t s1.activeTrajectories }
  let e := mkEvent s2.uuidCounter s2.clock t .task_start (.taskStart task channel metadata)
  let s3 : SysState := { s2 with uuidCounter := s2.uuidCounter + 1 }
  bufferEventFn e s3

/-- `endTrajectory` from `trajectory.ts`: no-op without an active
trajectory; otherwise emit `task_end`, drop the trajectory, and flush. -/
def endTrajectoryFn (sessionKey : String) (status : EndStatus)
    (finalAnswer err : Option String) (metadata : Option Val) (s : SysState) : SysState :=
  match mget sessionKey s.activeTrajectories with
  | none => s
  | some t =>
    let e := mkEvent s.uuidCounter s.clock t .task_end (.taskEnd status finalAnswer err metadata)
    let s1 : SysState := { s with uuidCounter := s.uuidCounter + 1 }
    let s2 := bufferEventFn e s1
    let s3 : SysState := { s2 with activeTrajectories := mdel sessionKey s2.activeTrajectories }
    flushBufferFn s3

/-- Arguments of `logLLMCall`. -/
structure LLMCallArgs where
  messages : List ChatMessage
  model : Option String
  provider : Option String
  response : Option LLMResponse
  usage : Option UsageIn
  reasoning : Option LLMReasoning
  error : Option String
deriving DecidableEq

/-- Arguments of `logToolCall`. -/
structure ToolCallArgs where
  toolName : String
  toolInput : Val
  toolOutput : Option Val
  error : Option String
  durationMs : Option Nat
deriving DecidableEq

/-- Arguments of `logAgentDefinition`. -/
structure AgentDefArgs where
  agentId : String
  name : Option String
  description : Option String
  tools : Option (List String)
  systemPrompt : Option String
  parentAgentId : Option String
deriving DecidableEq

/-- `logLLMCall`: drop silently without an active trajectory, otherwise
normalise the usage block and buffer an `llm_call` event. -/
def logLLMCallFn (sessionKey : String) (a : LLMCallArgs) (s : SysState) : SysState :=
  match mget sessionKey s.activeTrajectories with
  | none => s
  | some t =>
    let usageOut : Option UsageOut := a.usage.map (fun u =>
      { input_tokens := u.inputTokens, output_tokens := u.outputTokens,
        reasoning_tokens := u.reasoningTokens,
        total_tokens := u.inputTokens.getD 0 + u.outputTokens.getD 0 + u.reasoningTokens.getD 0 })
    let p : LLMCallPayload :=
      { messages := a.messages, model := a.model, provider := a.provider,
        response := a.response, usage := usageOut, reasoning := a.reasoning,
        error := a.error }
    let e := mkEvent s.uuidCounter s.clock t .llm_call (.llmCall p)
    bufferEventFn e { s with uuidCounter := s.uuidCounter + 1 }

/-- `logToolCall`: drop silently without an active trajectory. -/
def logToolCallFn (sessionKey : String) (a : ToolCallArgs) (s : SysState) : SysState :=
  match mget sessionKey s.activeTrajectories with
  | none => s
  | some t =>
    let p : ToolCallPayload :=
      { tool_name := a.toolName, tool_input := a.toolInput, tool_output := a.toolOutput,
        error := a.error, duration_ms := a.durationMs }
    let e := mkEvent s.uuidCounter s.clock t .tool_call (.toolCall p)
    bufferEventFn e { s with uuidCounter := s.uuidCounter + 1 }

/-- `logAgentDefinition`: drop silently without an active trajectory. -/
def logAgentDefinitionFn (sessionKey : String) (a : AgentDefArgs) (s : SysState) : SysState :=
  match mget sessionKey s.activeTrajectories with
  | none => s
  | some t =>
    let p : AgentDefinitionPayload :=
      { agent_id := a.agentId, name := a.name, description := a.description,
        tools := a.tools, system_prompt := a.systemPrompt,
        parent_agent_id := a.parentAgentId }
    let e := mkEvent s.uuidCounter s.clock t .agent_definition (.agentDefinition p)
    bufferEventFn e { s with uuidCounter := s.uuidCounter + 1 }

/-- `hasActiveTrajectory` from `trajectory.ts`. -/
def hasActiveTrajectoryFn (sessionKey : String) (s : SysState) : Bool :=
  (mget sessionKey s.activeTrajectories).isSome

/-- `handleToolEvent` from `event-listener.ts`.  On `start`, record the
start time and the input by tool-call id; on a terminal phase, compute the
duration, recover the recorded input, classify errors, and log one
`tool_call`. -/
def handleToolEventFn (sessionKey : String) (d : SignalData) (s : SysState) : SysState :=
  match d.name with
  | none => s
  | some toolName =>
    if toolName = "" then s
    else if d.phase = some "start" then
      if strTruthy d.toolCallId then
        let id := d.toolCallId.getD ""
        { s with toolStartTimes := mset id s.clock s.toolStartTimes,
                 toolInputsById := mset id (d.args.getD Val.obj0) s.toolInputsById }
      else s
    else if d.phase = some "result" ∨ d.phase = some "end" ∨ d.phase = some "error" then
      let hasId := strTruthy d.toolCallId
      let id := d.toolCallId.getD ""
      let durationMs : Option Nat :=
        if hasId then (mget id s.toolStartTimes).map (fun t0 => s.clock - t0) else none
      let s1 : SysState :=
        if hasId then { s with toolStartTimes := mdel id s.toolStartTimes } else s
      let toolInput : Val :=
        if hasId then (mget id s1.toolInputsById).getD (d.args.getD Val.obj0)
        else d.args.getD Val.obj0
      let s2 : SysState :=
        if hasId then { s1 with toolInputsById := mdel id s1.toolInputsById } else s1
      let isErr : Bool := decide (d.phase = some "error") || decide (d.isError = some true)
      let errMsg : Option String :=
        if isErr then
          some (match d.error with
            | some (Val.str e) => e
            | _ =>
              match d.result with
              | some (Val.str r) => r
              | _ => "Unknown error")
        else none
      let toolOutput : Option Val := if isErr then none else d.result
      logToolCallFn sessionKey
        { toolName := toolName, toolInput := toolInput, toolOutput := toolOutput,
          error := errMsg, durationMs := durationMs } s2
    else s

/-- Text/thinking part of `handleAssistantEvent` (everything after the
usage short-circuit): immediate `llm_call` for pure reasoning, and the
debounce path for response text, with the backward-delta discard. -/
def handleAssistantTextFn (sessionKey : String) (d : SignalData) (s : SysState) : SysState :=
  if !(strTruthy d.text || strTruthy d.thinking) then s
  else if strTruthy d.thinking && !(strTruthy d.text) then
    logLLMCallFn sessionKey
      { messages := [], model := d.model, provider := d.provider, response := none,
        usage := none, reasoning := some { thinking := d.thinking }, error := none } s
  else if strTruthy d.text then
    let text := d.text.getD ""
    let lastText := (mget sessionKey s.lastLLMText).getD ""
    if startsWithFn lastText text then s
    else
      let s1 : SysState :=
        { s with
          llmPending := mset sessionKey
            { text := text, model := d.model, provider := d.provider } s.llmPending,
          lastLLMText := mset sessionKey text s.lastLLMText }
      { s1 with llmTimers := tset sessionKey s1.llmTimers }
  else s

/-- `handleAssistantEvent` from `event-listener.ts`: a usage signal with a
nonzero token count is emitted immediately and returns without touching the
debounce state. -/
def handleAssistantEventFn (sessionKey : String) (d : SignalData) (s : SysState) : SysState :=
  match d.usage with
  | some u =>
    if natTruthy u.inputTokens || natTruthy u.outputTokens then
      logLLMCallFn sessionKey
        { messages := [], model := d.model, provider := d.provider, response := none,
          usage := some { inputTokens := u.inputTokens, outputTokens := u.outputTokens,
                          reasoningTokens := none },
          reasoning := none, error := none } s
    else handleAssistantTextFn sessionKey d s
  | none => handleAssistantTextFn sessionKey d s

/-- `handleLifecycleEvent` from `event-listener.ts`: phase `end` deletes
the run-to-session entry; nothing is emitted. -/
def handleLifecycleEventFn (runId : String) (_sessionKey : String) (d : SignalData)
    (s : SysState) : SysState :=
  if d.phase = some "end" then { s with runIdToSession := mdel runId s.runIdToSession } else s

/-- `handleAgentEvent` from `event-listener.ts`: record the run-to-session
mapping when the signal carries a session key, resolve the session, drop
unresolvable signals and signals for sessions without an active trajectory,
then dispatch by stream. -/
def handleAgentEventFn (runId : String) (stream : StreamName) (d : SignalData)
    (sessionKey : Option String) (s : SysState) : SysState :=
  if !s.clientReady then s
  else
    let s1 : SysState :=
      if strTruthy sessionKey then
        { s with runIdToSession := mset runId (sessionKey.getD "") s.runIdToSession }
      else s
    let resolved : Option String :=
      match sessionKey with
      | some v => some v
      | none => mget runId s1.runIdToSession
    match resolved with
    | none => s1
    | some rk =>
      if rk = "" then s1
      else if !hasActiveTrajectoryFn rk s1 then s1
      else
        match stream with
        | .tool => handleToolEventFn rk d s1
        | .assistant => handleAssistantEventFn rk d s1
        | .lifecycle => handleLifecycleEventFn runId rk d s1

/-- Body of the debounce `setTimeout` callback for a session: emit the
pending payload (if any) as an `llm_call` and drop the timer.  It can only
run while its timer is live (a cleared timer never fires). -/
def debounceFireFn (sessionKey : String) (s : SysState) : SysState :=
  if tmem sessionKey s.llmTimers then
    let s1 : SysState :=
      match mget sessionKey s.llmPending with
      | some p =>
        let s' := logLLMCallFn sessionKey
          { messages := [], model := p.model, provider := p.provider,
            response := some { text := some p.text }, usage := none,
            reasoning := none, error := none } s
        { s' with llmPending := mdel sessionKey s'.llmPending }
      | none => s
    { s1 with llmTimers := tdel sessionKey s1.llmTimers }
  else s

/-- `flushPendingLLMEvents` from `event-listener.ts`: cancel the live
timer, emit any pending payload, and clear the per-session
last-emitted-text record. -/
def flushPendingLLMEventsFn (sessionKey : String) (s : SysState) : SysState :=
  let s1 : SysState :=
    if tmem sessionKey s.llmTimers then { s with llmTimers := tdel sessionKey s.llmTimers }
    else s
  let s2 : SysState :=
    match mget sessionKey s1.llmPending with
    | some p =>
      let s' := logLLMCallFn sessionKey
        { messages := [], model := p.model, provider := p.provider,
          response := some { text := some p.text }, usage := none,
          reasoning := none, error := none } s1
      { s' with llmPending := mdel sessionKey s'.llmPending }
    | none => s1
  { s2 with lastLLMText := mdel sessionKey s2.lastLLMText }

/-- `startEventListener`. -/
def startEventListenerFn (s : SysState) : SysState :=
  if s.listening then s else { s with listening := true }

/-- `stopEventListener`: when subscribed, unsubscribe and clear all
listener-side maps and timers. -/
def stopEventListenerFn (s : SysState) : SysState :=
  if s.listening then
    { s with listening := false, toolStartTimes := [], toolInputsById := [],
             runIdToSession := [], lastLLMText := [], llmTimers := [], llmPending := [] }
  else s

/-- One externally triggered step: an exported call, an incoming agent
signal, or a timer firing. -/
inductive Op where
  | opStart (sessionKey task : String) (channel agentId : Option String) (metadata : Option Val)
  | opEnd (sessionKey : String) (status : EndStatus) (finalAnswer err : Option String)
      (metadata : Option Val)
  | opLogLLM (sessionKey : String) (a : LLMCallArgs)
  | opLogTool (sessionKey : String) (a : ToolCallArgs)
  | opLogAgentDef (sessionKey : String) (a : AgentDefArgs)
  | opSignal (runId : String) (stream : StreamName) (d : SignalData) (sessionKey : Option String)
  | opDebounceFire (sessionKey : String)
  | opFlushTimerFire
  | opFlushBuffer
  | opFlushPendingLLM (sessionKey : String)
  | opStartListener
  | opStopListener
  | opTick (ms : Nat)
deriving DecidableEq

/-- The transition function.  Signals reach `handleAgentEvent` only while
the listener is subscribed, and timers fire only while armed. -/
def step (s : SysState) : Op → SysState
  | .opStart k task ch aid meta => startTrajectoryFn k task ch aid meta s
  | .opEnd k st fa er meta => endTrajectoryFn k st fa er meta s
  | .opLogLLM k a => logLLMCallFn k a s
  | .opLogTool k a => logToolCallFn k a s
  | .opLogAgentDef k a => logAgentDefinitionFn k a s
  | .opSignal r stream d sk => if s.listening then handleAgentEventFn r stream d sk s else s
  | .opDebounceFire k => debounceFireFn k s
  | .opFlushTimerFire => if s.flushTimer.isSome then flushBufferFn s else s
  | .opFlushBuffer => flushBufferFn s
  | .opFlushPendingLLM k => flushPendingLLMEventsFn k s
  | .opStartListener => startEventListenerFn s
  | .opStopListener => stopEventListenerFn s
  | .opTick ms => { s with clock := s.clock + ms }

/-- Run a sequence of steps. -/
def run (s : SysState) (ops : List Op) : SysState := List.foldl step s ops

/-- All events submitted to the transport so far, in submission order
(flush preserves buffer order, batches are submitted in flush order). -/
def delivered (s : SysState) : List TrajectoryEvent := s.sentBatches.flatten

/-- All events that have left the emitters so far: submitted batches
followed by the live buffer, in emission order. -/
def emitted (s : SysState) : List TrajectoryEvent := s.sentBatches.flatten ++ s.eventBuffer

/-- Is this step one of the explicit trajectory-boundary calls? -/
def isStartOrEnd : Op → Bool
  | .opStart _ _ _ _ _ => true
  | .opEnd _ _ _ _ _ => true
  | _ => false

/-- Response text of an `llm_call` event, when present. -/
def llmText (e : TrajectoryEvent) : Option String :=
  match e.payload with
  | .llmCall p => p.response.bind (fun r => r.text)
  | _ => none

/-! ### Map lemmas -/

theorem mget_mset_self {α : Type} (k : String) (v : α) (l : List (String × α)) :
    mget k (mset k v l) = some v := by
  induction l with
  | nil => simp [mget, mset]
  | cons p rest ih =>
    obtain ⟨k', v'⟩ := p
    by_cases h : k' = k <;> simp [mset, mget, h, ih]

theorem mget_mdel_self {α : Type} (k : String) (l : List (String × α)) :
    mget k (mdel k l) = none := by
  induction l with
  | nil => simp [mget, mdel]
  | cons p rest ih =>
    obtain ⟨k', v'⟩ := p
    by_cases h : k' = k <;> simp [mdel, mget, h, ih]

/-! ### Emission framing

`emitted` grows by appends only; every step other than `startTrajectory`
and `endTrajectory` appends only non-boundary events and leaves the
trajectory store untouched.  These lemmas carry the invariant behind C1. -/

/-- An event that is not a trajectory boundary. -/
def MidEv (e : TrajectoryEvent) : Prop :=
  e.event_type ≠ TrajectoryEventType.task_start ∧
  e.event_type ≠ TrajectoryEventType.task_end

/-- The relation a non-boundary step establishes between states. -/
def Frame (s s' : SysState) : Prop :=
  s'.clientReady = s.clientReady ∧
  s'.activeTrajectories = s.activeTrajectories ∧
  ∃ new, emitted s' = emitted s ++ new ∧ ∀ e ∈ new, MidEv e

theorem frame_rfl_of (s s' : SysState) (h1 : s'.clientReady = s.clientReady)
    (h2 : s'.activeTrajectories = s.activeTrajectories) (h3 : emitted s' = emitted s) :
    Frame s s' :=
  ⟨h1, h2, [], by simp [h3], by simp⟩

theorem frame_refl (s : SysState) : Frame s s := frame_rfl_of s s rfl rfl rfl

theorem frame_trans {s1 s2 s3 : SysState} (h12 : Frame s1 s2) (h23 : Frame s2 s3) :
    Frame s1 s3 := by
  obtain ⟨a1, b1, n1, e1, m1⟩ := h12
  obtain ⟨a2, b2, n2, e2, m2⟩ := h23
  refine ⟨a2.trans a1, b2.trans b1, n1 ++ n2, by rw [e2, e1, List.append_assoc], ?_⟩
  intro e he
  rcases List.mem_append.1 he with h | h
  · exact m1 e h
  · exact m2 e h

theorem flushBufferFn_spec (s : SysState) (hcl : s.clientReady = true) :
    (flushBufferFn s).clientReady = s.clientReady ∧
    (flushBufferFn s).activeTrajectories = s.activeTrajectories ∧
    emitted (flushBufferFn s) = emitted s ∧
    (flushBufferFn s).eventBuffer = [] := by
  by_cases h : s.eventBuffer = [] <;>
    simp [flushBufferFn, h, hcl, emitted]

theorem bufferEventFn_spec (e : TrajectoryEvent) (s : SysState) (hcl : s.clientReady = true) :
    (bufferEventFn e s).clientReady = s.clientReady ∧
    (bufferEventFn e s).activeTrajectories = s.activeTrajectories ∧
    emitted (bufferEventFn e s) = emitted s ++ [e] := by
  by_cases h1 : s.flushTimer = none <;>
    by_cases h2 : BUFFER_SETTINGS.maxSize ≤ s.eventBuffer.length + 1 <;>
      simp [bufferEventFn, flushBufferFn, h1, h2, hcl, emitted]

/-- Buffering a non-boundary event from a state related to `s` by pure
bookkeeping updates yields a `Frame` step. -/
theorem frame_of_buffer (s su : SysState) (e : TrajectoryEvent)
    (hcr : su.clientReady = s.clientReady) (hat : su.activeTrajectories = s.activeTrajectories)
    (hem : emitted su = emitted s) (hcl : s.clientReady = true) (hty : MidEv e) :
    Frame s (bufferEventFn e su) := by
  have hcl' : su.clientReady = true := by rw [hcr]; exact hcl
  obtain ⟨c, a, em⟩ := bufferEventFn_spec e su hcl'
  refine ⟨by rw [c, hcr], by rw [a, hat], [e], by rw [em, hem], ?_⟩
  intro x hx
  rw [List.mem_singleton] at hx
  subst hx
  exact hty

theorem logLLMCallFn_frame (k : String) (a : LLMCallArgs) (s : SysState)
    (hcl : s.clientReady = true) : Frame s (logLLMCallFn k a s) := by
  cases h : mget k s.activeTrajectories with
  | none => simpa [logLLMCallFn, h] using frame_refl s
  | some t =>
    have := frame_of_buffer s { s with uuidCounter := s.uuidCounter + 1 }
      (mkEvent s.uuidCounter s.clock t .llm_call (.llmCall
        { messages := a.messages, model := a.model, provider := a.provider,
          response := a.response,
          usage := a.usage.map (fun u =>
            { input_tokens := u.inputTokens, output_tokens := u.outputTokens,
              reasoning_tokens := u.reasoningTokens,
              total_tokens := u.inputTokens.getD 0 + u.outputTokens.getD 0 +
                u.reasoningTokens.getD 0 }),
          reasoning := a.reasoning, error := a.error }))
      rfl rfl rfl hcl (by constructor <;> simp [mkEvent])
    simpa [logLLMCallFn, h] using this

theorem logToolCallFn_frame (k : String) (a : ToolCallArgs) (s : SysState)
    (hcl : s.clientReady = true) : Frame s (logToolCallFn k a s) := by
  cases h : mget k s.activeTrajectories with
  | none => simpa [logToolCallFn, h] using frame_refl s
  | some t =>
    have := frame_of_buffer s { s with uuidCounter := s.uuidCounter + 1 }
      (mkEvent s.uuidCounter s.clock t .tool_call (.toolCall
        { tool_name := a.toolName, tool_input := a.toolInput, tool_output := a.toolOutput,
          error := a.error, duration_ms := a.durationMs }))
      rfl rfl rfl hcl (by constructor <;> simp [mkEvent])
    simpa [logToolCallFn, h] using this

theorem logAgentDefinitionFn_frame (k : String) (a : AgentDefArgs) (s : SysState)
    (hcl : s.clientReady = true) : Frame s (logAgentDefinitionFn k a s) := by
  cases h : mget k s.activeTrajectories with
  | none => simpa [logAgentDefinitionFn, h] using frame_refl s
  | some t =>
    have := frame_of_buffer s { s with uuidCounter := s.uuidCounter + 1 }
      (mkEvent s.uuidCounter s.clock t .agent_definition (.agentDefinition
        { agent_id := a.agentId, name := a.name, description := a.description,
          tools := a.tools, system_prompt := a.systemPrompt,
          parent_agent_id := a.parentAgentId }))
      rfl rfl rfl hcl (by constructor <;> simp [mkEvent])
    simpa [logAgentDefinitionFn, h] using this

theorem frame_log_llm (k : String) (a : LLMCallArgs) (s su : SysState)
    (hcr : su.clientReady = s.clientReady) (hat : su.activeTrajectories = s.activeTrajectories)
    (hem : emitted su = emitted s) (hcl : s.clientReady = true) :
    Frame s (logLLMCallFn k a su) :=
  frame_trans (frame_rfl_of s su hcr hat hem)
    (logLLMCallFn_frame k a su (by rw [hcr]; exact hcl))

theorem frame_log_tool (k : String) (a : ToolCallArgs) (s su : SysState)
    (hcr : su.clientReady = s.clientReady) (hat : su.activeTrajectories = s.activeTrajectories)
    (hem : emitted su = emitted s) (hcl : s.clientReady = true) :
    Frame s (logToolCallFn k a su) :=
  frame_trans (frame_rfl_of s su hcr hat hem)
    (logToolCallFn_frame k a su (by rw [hcr]; exact hcl))

theorem handleToolEventFn_frame (k : String) (d : SignalData) (s : SysState)
    (hcl : s.clientReady = true) : Frame s (handleToolEventFn k d s) := by
  cases hn : d.name with
  | none => simpa [handleToolEventFn, hn] using frame_refl s
  | some toolName =>
    by_cases h0 : toolName = ""
    · simpa [handleToolEventFn, hn, h0] using frame_refl s
    by_cases hp1 : d.phase = some "start"
    · by_cases hid : strTruthy d.toolCallId = true
      · simp [handleToolEventFn, hn, h0, hp1, hid]
        exact frame_rfl_of _ _ rfl rfl rfl
      · simp [handleToolEventFn, hn, h0, hp1, hid]
        exact frame_refl s
    by_cases hp2 : d.phase = some "result" ∨ d.phase = some "end" ∨ d.phase = some "error"
    · by_cases hid : strTruthy d.toolCallId = true
      · simp [handleToolEventFn, hn, h0, hp1, hp2, hid]
        exact frame_log_tool _ _ s _ rfl rfl rfl hcl
      · simp [handleToolEventFn, hn, h0, hp1, hp2, hid]
        exact frame_log_tool _ _ s _ rfl rfl rfl hcl
    · simp [handleToolEventFn, hn, h0, hp1, hp2]
      exact frame_refl s

theorem handleAssistantTextFn_frame (k : String) (d : SignalData) (s : SysState)
    (hcl : s.clientReady = true) : Frame s (handleAssistantTextFn k d s) := by
  by_cases ht : strTruthy d.text = true
  · by_cases hsw : startsWithFn ((mget k s.lastLLMText).getD "") (d.text.getD "") = true
    · simp [handleAssistantTextFn, ht, hsw]
      exact frame_refl s
    · simp [handleAssistantTextFn, ht, hsw]
      exact frame_rfl_of _ _ rfl rfl rfl
  · by_cases hth : strTruthy d.thinking = true
    · simp [handleAssistantTextFn, ht, hth]
      exact logLLMCallFn_frame _ _ s hcl
    · simp [handleAssistantTextFn, ht, hth]
      exact frame_refl s

theorem handleAssistantEventFn_frame (k : String) (d : SignalData) (s : SysState)
    (hcl : s.clientReady = true) : Frame s (handleAssistantEventFn k d s) := by
  cases hu : d.usage with
  | none => simpa [handleAssistantEventFn, hu] using handleAssistantTextFn_frame k d s hcl
  | some u =>
    by_cases htok : (natTruthy u.inputTokens || natTruthy u.outputTokens) = true
    · simp [handleAssistantEventFn, hu, htok]
      exact logLLMCallFn_frame _ _ s hcl
    · simpa [handleAssistantEventFn, hu, htok] using handleAssistantTextFn_frame k d s hcl

theorem handleLifecycleEventFn_frame (r rk : String) (d : SignalData) (s : SysState) :
    Frame s (handleLifecycleEventFn r rk d s) := by
  by_cases hp : d.phase = some "end"
  · simp [handleLifecycleEventFn, hp]
    exact frame_rfl_of _ _ rfl rfl rfl
  · simp [handleLifecycleEventFn, hp]
    exact frame_refl s

theorem handleAgentEventFn_frame (r : String) (stream : StreamName) (d : SignalData)
    (sk : Option String) (s : SysState) (hcl : s.clientReady = true) :
    Frame s (handleAgentEventFn r stream d sk s) := by
  cases sk with
  | none =>
    cases hres : mget r s.runIdToSession with
    | none => simpa [handleAgentEventFn, hcl, strTruthy, hres] using frame_refl s
    | some rk =>
      by_cases hrk : rk = ""
      · simpa [handleAgentEventFn, hcl, strTruthy, hres, hrk] using frame_refl s
      by_cases hact : hasActiveTrajectoryFn rk s = true
      · cases stream
        · simp [handleAgentEventFn, hcl, strTruthy, hres, hrk, hact]
          exact handleToolEventFn_frame rk d s hcl
        · simp [handleAgentEventFn, hcl, strTruthy, hres, hrk, hact]
          exact handleAssistantEventFn_frame rk d s hcl
        · simp [handleAgentEventFn, hcl, strTruthy, hres, hrk, hact]
          exact handleLifecycleEventFn_frame r rk d s
      · simpa [handleAgentEventFn, hcl, strTruthy, hres, hrk, hact] using frame_refl s
  | some v =>
    by_cases hv : v = ""
    · simpa [handleAgentEventFn, hcl, strTruthy, hv] using frame_refl s
    · have hupd : Frame s
          { s with clientReady := true, runIdToSession := mset r v s.runIdToSession } :=
        frame_rfl_of _ _ (by simp [hcl]) rfl rfl
      by_cases hact : hasActiveTrajectoryFn v
          { s with clientReady := true, runIdToSession := mset r v s.runIdToSession } = true
      · cases stream
        · simp [handleAgentEventFn, hcl, strTruthy, hv, hact]
          exact frame_trans hupd (handleToolEventFn_frame v d _ rfl)
        · simp [handleAgentEventFn, hcl, strTruthy, hv, hact]
          exact frame_trans hupd (handleAssistantEventFn_frame v d _ rfl)
        · simp [handleAgentEventFn, hcl, strTruthy, hv, hact]
          exact frame_trans hupd (handleLifecycleEventFn_frame r v d _)
      · simpa [handleAgentEventFn, hcl, strTruthy, hv, hact] using hupd

theorem debounceFireFn_frame (k : String) (s : SysState) (hcl : s.clientReady = true) :
    Frame s (debounceFireFn k s) := by
  by_cases htm : tmem k s.llmTimers = true
  · cases hp : mget k s.llmPending with
    | none =>
      simp [debounceFireFn, htm, hp]
      exact frame_rfl_of _ _ rfl rfl rfl
    | some p =>
      simp only [debounceFireFn, htm, hp, if_true, ite_true]
      have hin : Frame s (logLLMCallFn k
          { messages := [], model := p.model, provider := p.provider,
            response := some { text := some p.text }, usage := none,
            reasoning := none, error := none } s) :=
        logLLMCallFn_frame _ _ s hcl
      obtain ⟨c, a, n, e, m⟩ := hin
      exact ⟨c, a, n, e, m⟩
  · simpa [debounceFireFn, htm] using frame_refl s

theorem flushPendingLLMEventsFn_frame (k : String) (s : SysState)
    (hcl : s.clientReady = true) : Frame s (flushPendingLLMEventsFn k s) := by
  by_cases htm : tmem k s.llmTimers = true
  · cases hp : mget k s.llmPending with
    | none =>
      simp [flushPendingLLMEventsFn, htm, hp]
      exact frame_rfl_of _ _ rfl rfl rfl
    | some p =>
      simp [flushPendingLLMEventsFn, htm, hp]
      have hin : Frame s (logLLMCallFn k
          { messages := [], model := p.model, provider := p.provider,
            response := some { text := some p.text }, usage := none,
            reasoning := none, error := none }
          { s with llmTimers := tdel k s.llmTimers }) :=
        frame_log_llm _ _ s _ rfl rfl rfl hcl
      obtain ⟨c, a, n, e, m⟩ := hin
      exact ⟨c, a, n, e, m⟩
  · cases hp : mget k s.llmPending with
    | none =>
      simp [flushPendingLLMEventsFn, htm, hp]
      exact frame_rfl_of _ _ rfl rfl rfl
    | some p =>
      simp [flushPendingLLMEventsFn, htm, hp]
      have hin : Frame s (logLLMCallFn k
          { messages := [], model := p.model, provider := p.provider,
            response := some { text := some p.text }, usage := none,
            reasoning := none, error := none } s) :=
        logLLMCallFn_frame _ _ s hcl
      obtain ⟨c, a, n, e, m⟩ := hin
      exact ⟨c, a, n, e, m⟩

theorem step_frame (s : SysState) (op : Op) (hcl : s.clientReady = true)
    (hop : isStartOrEnd op = false) : Frame s (step s op) := by
  cases op with
  | opStart k task ch aid meta => simp [isStartOrEnd] at hop
  | opEnd k st fa er meta => simp [isStartOrEnd] at hop
  | opLogLLM k a => exact logLLMCallFn_frame k a s hcl
  | opLogTool k a => exact logToolCallFn_frame k a s hcl
  | opLogAgentDef k a => exact logAgentDefinitionFn_frame k a s hcl
  | opSignal r stream d sk =>
    by_cases hl : s.listening = true
    · simpa [step, hl] using handleAgentEventFn_frame r stream d sk s hcl
    · simpa [step, hl] using frame_refl s
  | opDebounceFire k => exact debounceFireFn_frame k s hcl
  | opFlushTimerFire =>
    by_cases ht : s.flushTimer.isSome = true
    · obtain ⟨c, a, em, _⟩ := flushBufferFn_spec s hcl
      simpa [step, ht] using frame_rfl_of s _ c a em
    · simpa [step, ht] using frame_refl s
  | opFlushBuffer =>
    obtain ⟨c, a, em, _⟩ := flushBufferFn_spec s hcl
    exact frame_rfl_of s _ c a em
  | opFlushPendingLLM k => exact flushPendingLLMEventsFn_frame k s hcl
  | opStartListener =>
    by_cases hl : s.listening = true <;>
      simp [step, startEventListenerFn, hl] <;> exact frame_refl s
  | opStopListener =>
    by_cases hl : s.listening = true <;>
      simp [step, stopEventListenerFn, hl] <;> exact frame_refl s
  | opTick ms => exact frame_rfl_of _ _ rfl rfl rfl

theorem run_frame (s : SysState) (ops : List Op) (hcl : s.clientReady = true)
    (hops : ∀ op ∈ ops, isStartOrEnd op = false) : Frame s (run s ops) := by
  induction ops generalizing s with
  | nil => exact frame_refl s
  | cons op rest ih =>
    have h1 := step_frame s op hcl (hops op (List.mem_cons_self op rest))
    have hcl' : (step s op).clientReady = true := by rw [h1.1]; exact hcl
    exact frame_trans h1 (ih (step s op) hcl' (fun o ho => hops o (List.mem_cons_of_mem _ ho)))

theorem startTrajectoryFn_spec (k task : String) (ch aid : Option String) (meta : Option Val)
    (s : SysState) (hcl : s.clientReady = true) :
    (startTrajectoryFn k task ch aid meta s).clientReady = true ∧
    mget k (startTrajectoryFn k task ch aid meta s).activeTrajectories
      = some (mkTrajectory s k aid) ∧
    emitted (startTrajectoryFn k task ch aid meta s)
      = emitted s ++ [mkEvent (s.uuidCounter + 1) s.clock (mkTrajectory s k aid) .task_start
          (.taskStart task ch meta)] := by
  have key : startTrajectoryFn k task ch aid meta s
      = bufferEventFn
          (mkEvent (s.uuidCounter + 1) s.clock (mkTrajectory s k aid) .task_start
            (.taskStart task ch meta))
          { s with runIdCounter := s.runIdCounter + 1, uuidCounter := s.uuidCounter + 1 + 1,
                   activeTrajectories := mset k (mkTrajectory s k aid) s.activeTrajectories } :=
    rfl
  obtain ⟨c, a, em⟩ := bufferEventFn_spec
    (mkEvent (s.uuidCounter + 1) s.clock (mkTrajectory s k aid) .task_start
      (.taskStart task ch meta))
    { s with runIdCounter := s.runIdCounter + 1, uuidCounter := s.uuidCounter + 1 + 1,
             activeTrajectories := mset k (mkTrajectory s k aid) s.activeTrajectories }
    hcl
  rw [key]
  refine ⟨by rw [c]; exact hcl, ?_, by rw [em]; rfl⟩
  rw [a]
  exact mget_mset_self k (mkTrajectory s k aid) s.activeTrajectories

theorem endTrajectoryFn_spec (k : String) (st : EndStatus) (fa er : Option String)
    (meta : Option Val) (s : SysState) (t : ActiveTrajectory)
    (hact : mget k s.activeTrajectories = some t) (hcl : s.clientReady = true) :
    emitted (endTrajectoryFn k st fa er meta s)
      = emitted s ++ [mkEvent s.uuidCounter s.clock t .task_end (.taskEnd st fa er meta)] ∧
    (endTrajectoryFn k st fa er meta s).eventBuffer = [] := by
  have key : endTrajectoryFn k st fa er meta s
      = flushBufferFn
          { bufferEventFn (mkEvent s.uuidCounter s.clock t .task_end (.taskEnd st fa er meta))
              { s with uuidCounter := s.uuidCounter + 1 } with
            activeTrajectories :=
              mdel k (bufferEventFn
                (mkEvent s.uuidCounter s.clock t .task_end (.taskEnd st fa er meta))
                { s with uuidCounter := s.uuidCounter + 1 }).activeTrajectories } := by
    simp [endTrajectoryFn, hact]
  obtain ⟨cb, ab, emb⟩ := bufferEventFn_spec
    (mkEvent s.uuidCounter s.clock t .task_end (.taskEnd st fa er meta))
    { s with uuidCounter := s.uuidCounter + 1 } hcl
  obtain ⟨cf, af, emf, bf⟩ := flushBufferFn_spec
    { bufferEventFn (mkEvent s.uuidCounter s.clock t .task_end (.taskEnd st fa er meta))
        { s with uuidCounter := s.uuidCounter + 1 } with
      activeTrajectories :=
        mdel k (bufferEventFn
          (mkEvent s.uuidCounter s.clock t .task_end (.taskEnd st fa er meta))
          { s with uuidCounter := s.uuidCounter + 1 }).activeTrajectories }
    (by rw [cb]; exact hcl)
  rw [key]
  refine ⟨?_, bf⟩
  calc emitted _ = emitted (bufferEventFn
        (mkEvent s.uuidCounter s.clock t .task_end (.taskEnd st fa er meta))
        { s with uuidCounter := s.uuidCounter + 1 }) := emf
    _ = emitted s ++ [mkEvent s.uuidCounter s.clock t .task_end (.taskEnd st fa er meta)] := by
        rw [emb]; rfl

/-- C1: for every sequence `startTrajectory`, then any number of
`logLLMCall`/`logToolCall`/`logAgentDefinition` calls and incoming signals
(and timer firings and flushes), then `endTrajectory`, all on one session,
the batch stream delivered to the transport contains exactly one
`task_start` and one `task_end` event for that trajectory, with the
`task_start` first and the `task_end` last among that trajectory's
events. -/
theorem c1_trajectory_batch_boundaries
    (seed : Nat) (k task : String) (ch aid : Option String) (meta : Option Val)
    (mid : List Op) (st : EndStatus) (fa er : Option String) (meta2 : Option Val)
    (hmid : ∀ op ∈ mid, isStartOrEnd op = false) :
    ∃ tevs, tevs = ((delivered (run (initState true seed)
          (Op.opStart k task ch aid meta :: (mid ++ [Op.opEnd k st fa er meta2])))).filter
          (fun e => decide (e.task_id = (mkTrajectory (initState true seed) k aid).taskId))) ∧
      tevs.countP (fun e => decide (e.event_type = TrajectoryEventType.task_start)) = 1 ∧
      tevs.countP (fun e => decide (e.event_type = TrajectoryEventType.task_end)) = 1 ∧
      tevs.head?.map TrajectoryEvent.event_type = some TrajectoryEventType.task_start ∧
      tevs.getLast?.map TrajectoryEvent.event_type = some TrajectoryEventType.task_end := by
  refine ⟨_, rfl, ?_⟩
  have hrun : run (initState true seed)
        (Op.opStart k task ch aid meta :: (mid ++ [Op.opEnd k st fa er meta2]))
      = endTrajectoryFn k st fa er meta2
          (run (startTrajectoryFn k task ch aid meta (initState true seed)) mid) := by
    simp [run, List.foldl_append, step]
  obtain ⟨hc1, ha1, he1⟩ :=
    startTrajectoryFn_spec k task ch aid meta (initState true seed) rfl
  obtain ⟨fc, fat, new, fe, fm⟩ :=
    run_frame (startTrajectoryFn k task ch aid meta (initState true seed)) mid hc1 hmid
  have hact2 : mget k
      (run (startTrajectoryFn k task ch aid meta (initState true seed)) mid).activeTrajectories
      = some (mkTrajectory (initState true seed) k aid) := by rw [fat]; exact ha1
  have hc2 : (run (startTrajectoryFn k task ch aid meta (initState true seed))
      mid).clientReady = true := by rw [fc]; exact hc1
  obtain ⟨he, hb⟩ := endTrajectoryFn_spec k st fa er meta2 _
    (mkTrajectory (initState true seed) k aid) hact2 hc2
  have hdel : delivered (endTrajectoryFn k st fa er meta2
        (run (startTrajectoryFn k task ch aid meta (initState true seed)) mid))
      = emitted (endTrajectoryFn k st fa er meta2
        (run (startTrajectoryFn k task ch aid meta (initState true seed)) mid)) := by
    simp [delivered, emitted, hb]
  have hstream : delivered (endTrajectoryFn k st fa er meta2
        (run (startTrajectoryFn k task ch aid meta (initState true seed)) mid))
      = (mkEvent ((initState true seed).uuidCounter + 1) (initState true seed).clock
            (mkTrajectory (initState true seed) k aid) .task_start
            (.taskStart task ch meta) :: new)
        ++ [mkEvent (run (startTrajectoryFn k task ch aid meta (initState true seed))
              mid).uuidCounter
            (run (startTrajectoryFn k task ch aid meta (initState true seed)) mid).clock
            (mkTrajectory (initState true seed) k aid) .task_end
            (.taskEnd st fa er meta2)] := by
    rw [hdel, he, fe, he1]
    rfl
  rw [hrun, hstream]
  have hfilterNew : ∀ e ∈ new.filter
      (fun e => decide (e.task_id = (mkTrajectory (initState true seed) k aid).taskId)),
      e.event_type ≠ TrajectoryEventType.task_start ∧
      e.event_type ≠ TrajectoryEventType.task_end := by
    intro e he'
    exact fm e (List.mem_filter.1 he').1
  rw [show (mkEvent ((initState true seed).uuidCounter + 1) (initState true seed).clock
        (mkTrajectory (initState true seed) k aid) TrajectoryEventType.task_start
        (Payload.taskStart task ch meta) ::
      new ++
      [mkEvent (run (startTrajectoryFn k task ch aid meta (initState true seed))
            mid).uuidCounter
          (run (startTrajectoryFn k task ch aid meta (initState true seed)) mid).clock
          (mkTrajectory (initState true seed) k aid) TrajectoryEventType.task_end
          (Payload.taskEnd st fa er meta2)])
    = ((mkEvent ((initState true seed).uuidCounter + 1) (initState true seed).clock
        (mkTrajectory (initState true seed) k aid) TrajectoryEventType.task_start
        (Payload.taskStart task ch meta) :: new) ++
      [mkEvent (run (startTrajectoryFn k task ch aid meta (initState true seed))
            mid).uuidCounter
          (run (startTrajectoryFn k task ch aid meta (initState true seed)) mid).clock
          (mkTrajectory (initState true seed) k aid) TrajectoryEventType.task_end
          (Payload.taskEnd st fa er meta2)]) from rfl]
  rw [List.filter_append, List.filter_cons]
  simp only [mkEvent, decide_eq_true_eq, ite_true, if_pos rfl]
  rw [List.filter_cons]
  simp only [List.filter_nil, decide_eq_true_eq, ite_true, if_pos rfl]
  refine ⟨?_, ?_, ?_, ?_⟩
  · rw [List.cons_append, List.countP_cons, List.countP_append, List.countP_cons]
    have h0 : (new.filter
        (fun e => decide (e.task_id = (mkTrajectory (initState true seed) k aid).taskId))).countP
        (fun e => decide (e.event_type = TrajectoryEventType.task_start)) = 0 := by
      rw [List.countP_eq_zero]
      intro e he'
      simp only [decide_eq_true_eq]
      exact (hfilterNew e he').1
    simp [h0]
  · rw [List.cons_append, List.countP_cons, List.countP_append, List.countP_cons]
    have h0 : (new.filter
        (fun e => decide (e.task_id = (mkTrajectory (initState true seed) k aid).taskId))).countP
        (fun e => decide (e.event_type = TrajectoryEventType.task_end)) = 0 := by
      rw [List.countP_eq_zero]
      intro e he'
      simp only [decide_eq_true_eq]
      exact (hfilterNew e he').2
    simp [h0]
  · simp
  · rw [List.getLast?_concat]
    simp

/-- Witness for C1: the concrete trace with no middle operations. -/
theorem c1_trajectory_batch_boundaries_witness :
    (∀ op ∈ ([] : List Op), isStartOrEnd op = false) ∧
    (∃ tevs, tevs = ((delivered (run (initState true 0)
          (Op.opStart "s1" "greet" none none none ::
            (([] : List Op) ++ [Op.opEnd "s1" EndStatus.success none none none])))).filter
          (fun e => decide (e.task_id = (mkTrajectory (initState true 0) "s1" none).taskId))) ∧
      tevs.countP (fun e => decide (e.event_type = TrajectoryEventType.task_start)) = 1 ∧
      tevs.countP (fun e => decide (e.event_type = TrajectoryEventType.task_end)) = 1 ∧
      tevs.head?.map TrajectoryEvent.event_type = some TrajectoryEventType.task_start ∧
      tevs.getLast?.map TrajectoryEvent.event_type = some TrajectoryEventType.task_end) :=
  ⟨fun op h => absurd h (List.not_mem_nil op),
   c1_trajectory_batch_boundaries 0 "s1" "greet" none none none [] EndStatus.success none
     none none (fun op h => absurd h (List.not_mem_nil op))⟩

/-- C3: for a session with no active trajectory, `logLLMCall`,
`logToolCall` and `logAgentDefinition` are complete no-ops: the state (and
in particular the event buffer length) is unchanged, and being total
functions they raise nothing. -/
theorem c3_logs_noop_without_trajectory (s : SysState) (k : String)
    (la : LLMCallArgs) (ta : ToolCallArgs) (aa : AgentDefArgs)
    (h : mget k s.activeTrajectories = none) :
    step s (Op.opLogLLM k la) = s ∧
    step s (Op.opLogTool k ta) = s ∧
    step s (Op.opLogAgentDef k aa) = s ∧
    (step s (Op.opLogLLM k la)).eventBuffer.length = s.eventBuffer.length := by
  refine ⟨?_, ?_, ?_, ?_⟩ <;>
    simp [step, logLLMCallFn, logToolCallFn, logAgentDefinitionFn, h]

/-- Witness for C3 at the initial state. -/
theorem c3_logs_noop_without_trajectory_witness :
    mget "s1" (initState true 0).activeTrajectories = none ∧
    (step (initState true 0)
        (Op.opLogLLM "s1" ⟨[], none, none, none, none, none, none⟩) = initState true 0 ∧
     step (initState true 0)
        (Op.opLogTool "s1" ⟨"t", Val.obj0, none, none, none⟩) = initState true 0 ∧
     step (initState true 0)
        (Op.opLogAgentDef "s1" ⟨"a", none, none, none, none, none⟩) = initState true 0 ∧
     (step (initState true 0)
        (Op.opLogLLM "s1" ⟨[], none, none, none, none, none, none⟩)).eventBuffer.length
        = (initState true 0).eventBuffer.length) :=
  ⟨rfl, c3_logs_noop_without_trajectory (initState true 0) "s1" _ _ _ rfl⟩

/-- C4: calling `startTrajectory` again for a session that already has an
active trajectory silently overwrites the stored trajectory with the newly
built one (the old in-progress state is discarded from the store), emits
exactly one new event — the new trajectory's `task_start`, carrying the
freshly allocated run id — and synthesizes no `task_end` for the abandoned
trajectory. -/
theorem c4_start_overwrites_silently (s : SysState) (k task : String)
    (ch aid : Option String) (meta : Option Val) (t0 : ActiveTrajectory)
    (hact : mget k s.activeTrajectories = some t0) (hcl : s.clientReady = true) :
    mget k (step s (Op.opStart k task ch aid meta)).activeTrajectories
      = some (mkTrajectory s k aid) ∧
    emitted (step s (Op.opStart k task ch aid meta))
      = emitted s ++ [mkEvent (s.uuidCounter + 1) s.clock (mkTrajectory s k aid)
          TrajectoryEventType.task_start (Payload.taskStart task ch meta)] ∧
    (mkEvent (s.uuidCounter + 1) s.clock (mkTrajectory s k aid)
        TrajectoryEventType.task_start (Payload.taskStart task ch meta)).event_type
      = TrajectoryEventType.task_start ∧
    (mkTrajectory s k aid).runId = Nat.repr s.runIdCounter := by
  obtain ⟨c, a, em⟩ := startTrajectoryFn_spec k task ch aid meta s hcl
  exact ⟨a, em, rfl, rfl⟩

/-- Witness for C4: a double start on session `"s1"`. -/
theorem c4_start_overwrites_silently_witness :
    mget "s1" (run (initState true 0)
        [Op.opStart "s1" "first" none none none]).activeTrajectories
      = some (mkTrajectory (initState true 0) "s1" none) ∧
    (run (initState true 0) [Op.opStart "s1" "first" none none none]).clientReady = true ∧
    mget "s1" (step (run (initState true 0) [Op.opStart "s1" "first" none none none])
        (Op.opStart "s1" "second" none none none)).activeTrajectories
      = some (mkTrajectory (run (initState true 0) [Op.opStart "s1" "first" none none none])
          "s1" none) := by
  have h := c4_start_overwrites_silently
    (run (initState true 0) [Op.opStart "s1" "first" none none none]) "s1" "second"
    none none none (mkTrajectory (initState true 0) "s1" none) (by decide) (by decide)
  exact ⟨by decide, by decide, h.1⟩

/-- C6: `bufferEvent` appends the event to the shared buffer; when no flush
timer is armed it arms one at the fixed interval (`flushIntervalMs`,
default 5000 ms); when the buffer length reaches `maxSize` (default 100)
it triggers an immediate flush regardless of timer state; below that
threshold the events stay in the buffer and nothing is submitted. -/
theorem c6_bufferEvent_spec (s : SysState) (e : TrajectoryEvent) :
    BUFFER_SETTINGS.maxSize = 100 ∧
    BUFFER_SETTINGS.flushIntervalMs = 5000 ∧
    (s.eventBuffer.length + 1 < BUFFER_SETTINGS.maxSize →
      (bufferEventFn e s).eventBuffer = s.eventBuffer ++ [e] ∧
      (bufferEventFn e s).sentBatches = s.sentBatches) ∧
    (s.flushTimer = none → s.eventBuffer.length + 1 < BUFFER_SETTINGS.maxSize →
      (bufferEventFn e s).flushTimer = some (s.clock + BUFFER_SETTINGS.flushIntervalMs)) ∧
    (s.flushTimer ≠ none → s.eventBuffer.length + 1 < BUFFER_SETTINGS.maxSize →
      (bufferEventFn e s).flushTimer = s.flushTimer) ∧
    (BUFFER_SETTINGS.maxSize ≤ s.eventBuffer.length + 1 → s.clientReady = true →
      (bufferEventFn e s).eventBuffer = [] ∧
      (bufferEventFn e s).sentBatches = s.sentBatches ++ [s.eventBuffer ++ [e]] ∧
      (bufferEventFn e s).flushTimer = none) := by
  refine ⟨rfl, rfl, ?_, ?_, ?_, ?_⟩
  · intro h1
    have h2 : ¬ BUFFER_SETTINGS.maxSize ≤ s.eventBuffer.length + 1 := by omega
    by_cases ht : s.flushTimer = none <;>
      simp [bufferEventFn, ht, h2]
  · intro ht h1
    have h2 : ¬ BUFFER_SETTINGS.maxSize ≤ s.eventBuffer.length + 1 := by omega
    simp [bufferEventFn, ht, h2]
  · intro ht h1
    have h2 : ¬ BUFFER_SETTINGS.maxSize ≤ s.eventBuffer.length + 1 := by omega
    simp [bufferEventFn, ht, h2]
  · intro h1 hcl
    by_cases ht : s.flushTimer = none <;>
      simp [bufferEventFn, flushBufferFn, ht, h1, hcl]

/-- Witness for C6: one enqueue into an empty buffer (timer armed, no
flush), and one enqueue into a buffer holding 99 events (immediate
flush). -/
theorem c6_bufferEvent_spec_witness :
    ((initState true 0).eventBuffer.length + 1 < BUFFER_SETTINGS.maxSize) ∧
    (bufferEventFn (mkEvent 0 0 (mkTrajectory (initState true 0) "s1" none)
        TrajectoryEventType.log (Payload.taskStart "x" none none))
      (initState true 0)).eventBuffer
      = [mkEvent 0 0 (mkTrajectory (initState true 0) "s1" none)
          TrajectoryEventType.log (Payload.taskStart "x" none none)] ∧
    (bufferEventFn (mkEvent 0 0 (mkTrajectory (initState true 0) "s1" none)
        TrajectoryEventType.log (Payload.taskStart "x" none none))
      (initState true 0)).flushTimer
      = some ((initState true 0).clock + BUFFER_SETTINGS.flushIntervalMs) ∧
    (bufferEventFn (mkEvent 0 0 (mkTrajectory (initState true 0) "s1" none)
        TrajectoryEventType.log (Payload.taskStart "x" none none))
      { initState true 0 with
        eventBuffer := List.replicate 99 (mkEvent 0 0
          (mkTrajectory (initState true 0) "s1" none)
          TrajectoryEventType.log (Payload.taskStart "x" none none)) }).eventBuffer = [] := by
  have h1 := c6_bufferEvent_spec (initState true 0)
    (mkEvent 0 0 (mkTrajectory (initState true 0) "s1" none)
      TrajectoryEventType.log (Payload.taskStart "x" none none))
  have h2 := c6_bufferEvent_spec
    { initState true 0 with
      eventBuffer := List.replicate 99 (mkEvent 0 0
        (mkTrajectory (initState true 0) "s1" none)
        TrajectoryEventType.log (Payload.taskStart "x" none none)) }
    (mkEvent 0 0 (mkTrajectory (initState true 0) "s1" none)
      TrajectoryEventType.log (Payload.taskStart "x" none none))
  refine ⟨by decide, (h1.2.2.1 (by decide)).1, h1.2.2.2.1 rfl (by decide), ?_⟩
  exact (h2.2.2.2.2.2 (by simp [BUFFER_SETTINGS]) rfl).1

/-- C7: `flushBuffer` cancels any pending flush timer, is a no-op on an
empty buffer, atomically swaps the buffer out before submitting (so a
subsequent enqueue lands in a fresh buffer), and a transport failure is
swallowed: the post-state equals the success post-state — the swapped-out
batch is not re-queued and no exception propagates (the transition is a
total function). -/
theorem c7_flushBuffer_spec (s : SysState) :
    (∀ transportOk, flushBufferWith transportOk s = flushBufferFn s) ∧
    (flushBufferFn s).flushTimer = none ∧
    (s.eventBuffer = [] → flushBufferFn s = { s with flushTimer := none }) ∧
    (s.eventBuffer ≠ [] → s.clientReady = true →
      (flushBufferFn s).eventBuffer = [] ∧
      (flushBufferFn s).sentBatches = s.sentBatches ++ [s.eventBuffer]) ∧
    (∀ e, (bufferEventFn e (flushBufferFn s)).eventBuffer = [e]) := by
  refine ⟨?_, ?_, ?_, ?_, ?_⟩
  · intro ok
    by_cases h : s.eventBuffer = [] <;> by_cases hc : s.clientReady <;> cases ok <;>
      simp [flushBufferWith, flushBufferFn, h, hc]
  · by_cases h : s.eventBuffer = [] <;> by_cases hc : s.clientReady <;>
      simp [flushBufferFn, h, hc]
  · intro h
    simp [flushBufferFn, h]
  · intro h hc
    simp [flushBufferFn, h, hc]
  · intro e
    have hb : (flushBufferFn s).eventBuffer = [] := by
      by_cases h : s.eventBuffer = [] <;> by_cases hc : s.clientReady <;>
        simp [flushBufferFn, h, hc]
    by_cases ht : (flushBufferFn s).flushTimer = none <;>
      simp [bufferEventFn, ht, hb, BUFFER_SETTINGS]

/-- Witness for C7: flushing a buffer holding one event, and the empty
no-op case at the initial state. -/
theorem c7_flushBuffer_spec_witness :
    ((run (initState true 0) [Op.opStart "s1" "t" none none none]).eventBuffer ≠ [] ∧
     (flushBufferFn (run (initState true 0)
        [Op.opStart "s1" "t" none none none])).eventBuffer = []) ∧
    ((initState true 0).eventBuffer = [] ∧
     flushBufferFn (initState true 0) = { initState true 0 with flushTimer := none }) ∧
    flushBufferWith false (run (initState true 0) [Op.opStart "s1" "t" none none none])
      = flushBufferFn (run (initState true 0) [Op.opStart "s1" "t" none none none]) := by
  have h1 := c7_flushBuffer_spec (run (initState true 0) [Op.opStart "s1" "t" none none none])
  have h2 := c7_flushBuffer_spec (initState true 0)
  refine ⟨⟨by decide, (h1.2.2.2.1 (by decide) (by decide)).1⟩, ⟨rfl, h2.2.2.1 rfl⟩, h1.1 false⟩

/-- Counterexample to C8 as stated: a run-to-session entry is recorded for
run `"r1"` by a signal arriving while session `"k1"` has no active
trajectory; the later lifecycle `end` signal for `"r1"` is then dropped by
the active-trajectory guard before `handleLifecycleEvent` runs, so the
entry is NOT removed. -/
theorem c8_lifecycle_purge_counterexample :
    mget "r1" (run (initState true 0)
      [Op.opStartListener,
       Op.opSignal "r1" StreamName.tool
         { emptySignal with phase := some "start", name := some "t", toolCallId := some "id1" }
         (some "k1"),
       Op.opSignal "r1" StreamName.lifecycle
         { emptySignal with phase := some "end" } none]).runIdToSession
      = some "k1" := by decide

/-- C8 amended: processing a lifecycle-stream signal with phase `end` for a
run purges the run-to-session correlation entry provided the signal
resolves to a session that still has an active trajectory; otherwise the
correlator drops the signal before the purge and the entry survives. -/
theorem c8_lifecycle_purge_amended (s : SysState) (r rk : String) (d : SignalData)
    (hl : s.listening = true) (hcl : s.clientReady = true)
    (hres : mget r s.runIdToSession = some rk) (hrk : rk ≠ "")
    (hact : hasActiveTrajectoryFn rk s = true) (hphase : d.phase = some "end") :
    mget r (step s (Op.opSignal r StreamName.lifecycle d none)).runIdToSession = none := by
  simp [step, hl, handleAgentEventFn, strTruthy, hres, hrk, hact, hcl,
    handleLifecycleEventFn, hphase, mget_mdel_self]

/-- Witness for the amended C8: run `"r1"` is mapped to session `"k1"`
while `"k1"`'s trajectory is active; the lifecycle `end` signal purges the
entry. -/
theorem c8_lifecycle_purge_amended_witness :
    (run (initState true 0)
        [Op.opStartListener, Op.opStart "k1" "t" none none none,
         Op.opSignal "r1" StreamName.tool
           { emptySignal with phase := some "start", name := some "t", toolCallId := some "id1" } (some "k1")]).listening = true ∧
    mget "r1" (run (initState true 0)
        [Op.opStartListener, Op.opStart "k1" "t" none none none,
         Op.opSignal "r1" StreamName.tool
           { emptySignal with phase := some "start", name := some "t", toolCallId := some "id1" } (some "k1")]).runIdToSession = some "k1" ∧
    mget "r1" (step (run (initState true 0)
        [Op.opStartListener, Op.opStart "k1" "t" none none none,
         Op.opSignal "r1" StreamName.tool
           { emptySignal with phase := some "start", name := some "t", toolCallId := some "id1" } (some "k1")])
      (Op.opSignal "r1" StreamName.lifecycle
        { emptySignal with phase := some "end" } none)).runIdToSession = none := by
  refine ⟨by decide, by decide, ?_⟩
  exact c8_lifecycle_purge_amended _ "r1" "k1" _ (by decide) (by decide) (by decide)
    (by decide) (by decide) rfl

/-- Is a wire value a JSON number?  (`types.ts` declares `run_id: number`
with the comment "API requires int".) -/
def isIntVal : JVal → Bool
  | JVal.num _ => true
  | JVal.str _ => false

/-- C9 evaluated at the failing input: the event emitted by a single
`startTrajectory` call carries `run_id` as the JSON *string* `"0"`
(`String(runId)` in the code), not a JSON number, contradicting the
declared wire type; the underlying run-id counter does increase by one per
call, so the allocated run identifiers are strictly increasing. -/
theorem c9_run_id_is_string_not_int :
    ((emitted (run (initState true 0) [Op.opStart "s1" "t" none none none])).map
        (fun e => e.run_id) = [JVal.str "0"]) ∧
    ((emitted (run (initState true 0) [Op.opStart "s1" "t" none none none])).map
        (fun e => isIntVal e.run_id) = [false]) ∧
    (run (initState true 0) [Op.opStart "s1" "t" none none none]).runIdCounter
      = (initState true 0).runIdCounter + 1 ∧
    (run (run (initState true 0) [Op.opStart "s1" "t" none none none])
        [Op.opStart "s2" "t" none none none]).runIdCounter
      = (initState true 0).runIdCounter + 2 := by
  refine ⟨by decide, by decide, by decide, by decide⟩

/-- C2 evaluated at the failing input: text `"abc"` is pending in the
debouncer when `endTrajectory` runs.  `endTrajectory` neither cancels the
session's debounce timer nor emits the pending payload; when the timer
later fires, the trajectory is gone and the `llm_call` is dropped, so no
`llm_call` is ever emitted or delivered.  Calling `flushPendingLLMEvents`
explicitly before `endTrajectory` does deliver the text. -/
theorem c2_pending_text_lost_on_trajectory_end :
    mget "s1" (run (initState true 0)
      [Op.opStartListener, Op.opStart "s1" "t" none none none,
       Op.opSignal "r1" StreamName.assistant { emptySignal with text := some "abc" } (some "s1")]).llmPending
      = some { text := "abc", model := none, provider := none } ∧
    tmem "s1" (run (initState true 0)
      [Op.opStartListener, Op.opStart "s1" "t" none none none,
       Op.opSignal "r1" StreamName.assistant { emptySignal with text := some "abc" } (some "s1")]).llmTimers
      = true ∧
    (emitted (run (initState true 0)
      [Op.opStartListener, Op.opStart "s1" "t" none none none,
       Op.opSignal "r1" StreamName.assistant { emptySignal with text := some "abc" } (some "s1"),
       Op.opEnd "s1" EndStatus.success none none none,
       Op.opDebounceFire "s1"])).countP
      (fun e => decide (e.event_type = TrajectoryEventType.llm_call)) = 0 ∧
    (delivered (run (initState true 0)
      [Op.opStartListener, Op.opStart "s1" "t" none none none,
       Op.opSignal "r1" StreamName.assistant { emptySignal with text := some "abc" } (some "s1"),
       Op.opEnd "s1" EndStatus.success none none none,
       Op.opDebounceFire "s1"])).countP
      (fun e => decide (e.event_type = TrajectoryEventType.llm_call)) = 0 ∧
    ((delivered (run (initState true 0)
      [Op.opStartListener, Op.opStart "s1" "t" none none none,
       Op.opSignal "r1" StreamName.assistant { emptySignal with text := some "abc" } (some "s1"),
       Op.opFlushPendingLLM "s1",
       Op.opEnd "s1" EndStatus.success none none none])).filter
      (fun e => decide (e.event_type = TrajectoryEventType.llm_call))).map llmText
      = [some "abc"] := by
  refine ⟨by decide, by decide, by decide, by decide, by decide⟩

theorem sw_empty_a : startsWithFn "" "a" = false := by decide

theorem sw_a_ab : startsWithFn "a" "ab" = false := by decide

theorem sw_ab_abc : startsWithFn "ab" "abc" = false := by decide

/-- C5: for one (nonempty-keyed) session with an active trajectory,
streaming the fragments `"a"`, `"ab"`, `"abc"` within the settle window —
each arriving before the debounce timer fires — and then letting the timer
fire produces exactly one `llm_call` event, and its response text is
`"abc"`. -/
theorem c5_debounce_single_settled_event (k task : String) (hk : k ≠ "") :
    ((emitted (run (initState true 0)
        [Op.opStartListener, Op.opStart k task none none none,
         Op.opSignal "r" StreamName.assistant { emptySignal with text := some "a" } (some k),
         Op.opSignal "r" StreamName.assistant { emptySignal with text := some "ab" } (some k),
         Op.opSignal "r" StreamName.assistant { emptySignal with text := some "abc" } (some k),
         Op.opDebounceFire k])).countP
        (fun e => decide (e.event_type = TrajectoryEventType.llm_call)) = 1) ∧
    ((emitted (run (initState true 0)
        [Op.opStartListener, Op.opStart k task none none none,
         Op.opSignal "r" StreamName.assistant { emptySignal with text := some "a" } (some k),
         Op.opSignal "r" StreamName.assistant { emptySignal with text := some "ab" } (some k),
         Op.opSignal "r" StreamName.assistant { emptySignal with text := some "abc" } (some k),
         Op.opDebounceFire k])).filter
        (fun e => decide (e.event_type = TrajectoryEventType.llm_call))).map llmText
      = [some "abc"] := by
  have hk' : (k != "") = true := by simpa using hk
  constructor <;>
    simp [run, step, startEventListenerFn, startTrajectoryFn, mkTrajectory, mkEvent,
      bufferEventFn, flushBufferFn, handleAgentEventFn, handleAssistantEventFn,
      handleAssistantTextFn, logLLMCallFn, debounceFireFn, hasActiveTrajectoryFn,
      mget, mset, mdel, tmem, tset, tdel, strTruthy, natTruthy, emptySignal, initState,
      BUFFER_SETTINGS, emitted, delivered, llmText, hk', hk, sw_empty_a, sw_a_ab, sw_ab_abc]

/-- Witness for C5 at session `"s1"`. -/
theorem c5_debounce_single_settled_event_witness :
    ("s1" : String) ≠ "" ∧
    (((emitted (run (initState true 0)
        [Op.opStartListener, Op.opStart "s1" "t" none none none,
         Op.opSignal "r" StreamName.assistant { emptySignal with text := some "a" } (some "s1"),
         Op.opSignal "r" StreamName.assistant { emptySignal with text := some "ab" } (some "s1"),
         Op.opSignal "r" StreamName.assistant { emptySignal with text := some "abc" } (some "s1"),
         Op.opDebounceFire "s1"])).countP
        (fun e => decide (e.event_type = TrajectoryEventType.llm_call)) = 1) ∧
    ((emitted (run (initState true 0)
        [Op.opStartListener, Op.opStart "s1" "t" none none none,
         Op.opSignal "r" StreamName.assistant { emptySignal with text := some "a" } (some "s1"),
         Op.opSignal "r" StreamName.assistant { emptySignal with text := some "ab" } (some "s1"),
         Op.opSignal "r" StreamName.assistant { emptySignal with text := some "abc" } (some "s1"),
         Op.opDebounceFire "s1"])).filter
        (fun e => decide (e.event_type = TrajectoryEventType.llm_call))).map llmText
      = [some "abc"]) :=
  ⟨by decide, c5_debounce_single_settled_event "s1" "t" (by decide)⟩

theorem bufferEventFn_lastLLMText (e : TrajectoryEvent) (s : SysState) :
    (bufferEventFn e s).lastLLMText = s.lastLLMText := by
  by_cases h1 : s.flushTimer = none <;>
    by_cases h2 : BUFFER_SETTINGS.maxSize ≤ s.eventBuffer.length + 1 <;>
      by_cases h3 : s.clientReady <;>
        simp [bufferEventFn, flushBufferFn, h1, h2, h3]

theorem logLLMCallFn_lastLLMText (k : String) (a : LLMCallArgs) (s : SysState) :
    (logLLMCallFn k a s).lastLLMText = s.lastLLMText := by
  cases h : mget k s.activeTrajectories <;>
    simp [logLLMCallFn, h, bufferEventFn_lastLLMText]

theorem debounceFireFn_lastLLMText (k : String) (s : SysState) :
    (debounceFireFn k s).lastLLMText = s.lastLLMText := by
  by_cases htm : tmem k s.llmTimers = true <;>
    cases hp : mget k s.llmPending <;>
      simp [debounceFireFn, htm, hp, logLLMCallFn_lastLLMText]

theorem flushPendingLLMEventsFn_lastLLMText (k : String) (s : SysState) :
    (flushPendingLLMEventsFn k s).lastLLMText = mdel k s.lastLLMText := by
  by_cases htm : tmem k s.llmTimers = true <;>
    cases hp : mget k s.llmPending <;>
      simp [flushPendingLLMEventsFn, htm, hp, logLLMCallFn_lastLLMText]

/-- C10: the per-session last-emitted-text record used for backward-delta
deduplication survives debounce settlement (the timer body never clears
it); afterwards a text fragment that the recorded text starts with is
silently discarded — the whole handler is the identity, so no pending
entry and no new debounce timer is created — until `flushPendingLLMEvents`
for the session or `stopEventListener` clears the record. -/
theorem c10_lastText_survives_settlement (s : SysState) (k text last : String)
    (hlast : mget k s.lastLLMText = some last)
    (hsw : startsWithFn last text = true) (htext : text ≠ "") :
    (debounceFireFn k s).lastLLMText = s.lastLLMText ∧
    handleAssistantTextFn k { emptySignal with text := some text } s = s ∧
    mget k (flushPendingLLMEventsFn k s).lastLLMText = none ∧
    (s.listening = true → (stopEventListenerFn s).lastLLMText = []) := by
  refine ⟨debounceFireFn_lastLLMText k s, ?_, ?_, ?_⟩
  · have htext' : (text != "") = true := by simpa using htext
    simp [handleAssistantTextFn, emptySignal, strTruthy, htext', hlast, hsw]
  · rw [flushPendingLLMEventsFn_lastLLMText]
    exact mget_mdel_self k s.lastLLMText
  · intro hl
    simp [stopEventListenerFn, hl]

/-- Witness for C10: after `"abc"` settles and is emitted for session
`"s1"`, the record still holds `"abc"`, the later fragment `"ab"` is
discarded, and the two clearing paths clear it. -/
theorem c10_lastText_survives_settlement_witness :
    mget "s1" (run (initState true 0)
      [Op.opStartListener, Op.opStart "s1" "t" none none none,
       Op.opSignal "r" StreamName.assistant { emptySignal with text := some "abc" } (some "s1"),
       Op.opDebounceFire "s1"]).lastLLMText = some "abc" ∧
    startsWithFn "abc" "ab" = true ∧
    ("ab" : String) ≠ "" ∧
    (debounceFireFn "s1" (run (initState true 0)
      [Op.opStartListener, Op.opStart "s1" "t" none none none,
       Op.opSignal "r" StreamName.assistant { emptySignal with text := some "abc" } (some "s1"),
       Op.opDebounceFire "s1"])).lastLLMText
      = (run (initState true 0)
      [Op.opStartListener, Op.opStart "s1" "t" none none none,
       Op.opSignal "r" StreamName.assistant { emptySignal with text := some "abc" } (some "s1"),
       Op.opDebounceFire "s1"]).lastLLMText ∧
    handleAssistantTextFn "s1" { emptySignal with text := some "ab" } (run (initState true 0)
      [Op.opStartListener, Op.opStart "s1" "t" none none none,
       Op.opSignal "r" StreamName.assistant { emptySignal with text := some "abc" } (some "s1"),
       Op.opDebounceFire "s1"])
      = (run (initState true 0)
      [Op.opStartListener, Op.opStart "s1" "t" none none none,
       Op.opSignal "r" StreamName.assistant { emptySignal with text := some "abc" } (some "s1"),
       Op.opDebounceFire "s1"]) ∧
    mget "s1" (flushPendingLLMEventsFn "s1" (run (initState true 0)
      [Op.opStartListener, Op.opStart "s1" "t" none none none,
       Op.opSignal "r" StreamName.assistant { emptySignal with text := some "abc" } (some "s1"),
       Op.opDebounceFire "s1"])).lastLLMText = none ∧
    (stopEventListenerFn (run (initState true 0)
      [Op.opStartListener, Op.opStart "s1" "t" none none none,
       Op.opSignal "r" StreamName.assistant { emptySignal with text := some "abc" } (some "s1"),
       Op.opDebounceFire "s1"])).lastLLMText = [] := by
  have h := c10_lastText_survives_settlement (run (initState true 0)
      [Op.opStartListener, Op.opStart "s1" "t" none none none,
       Op.opSignal "r" StreamName.assistant { emptySignal with text := some "abc" } (some "s1"),
       Op.opDebounceFire "s1"]) "s1" "ab" "abc" (by decide) (by decide) (by decide)
  exact ⟨by decide, by decide, by decide, h.1, h.2.1, h.2.2.1, h.2.2.2 (by decide)⟩
